import Mathlib

/-!
# LearnOpenGL: the triangle program of `src/Main.cpp`

A shallow embedding of `main`, `processInput` and `framebufferSizeCallback`.

The windowing library (GLFW), the function loader (glad) and the graphics
library (OpenGL) are external.  Every value they hand back to the program is a
field of `Env`; every call the program makes is appended to a trace of `Event`s,
each tagged with the function of `Main.cpp` that made the call.  The render loop
runs for at most `fuel` ticks, so that `main fuel e` is the run of `main` cut
after `fuel` ticks: `exit = none` says that the loop was still running.
-/

namespace LearnOpenGL

/-! ## Names taken from the headers -/

/-- Enumerants of `glad/glad.h` that occur in `Main.cpp`.  `GL_LINK_STATUS` does
not occur in the source; it names the query that reports whether a program
object linked. -/
inductive GLenum
  | GL_VERTEX_SHADER
  | GL_FRAGMENT_SHADER
  | GL_COMPILE_STATUS
  | GL_LINK_STATUS
  | GL_ARRAY_BUFFER
  | GL_STATIC_DRAW
  | GL_FLOAT
  | GL_COLOR_BUFFER_BIT
  | GL_TRIANGLES
  deriving DecidableEq, Repr

/-- Boolean enumerants of `glad/glad.h`. -/
inductive GLboolean
  | GL_FALSE
  | GL_TRUE
  deriving DecidableEq, Repr

/-- Window hints of `GLFW/glfw3.h` set by `main`. -/
inductive GlfwHint
  | GLFW_CONTEXT_VERSION_MAJOR
  | GLFW_CONTEXT_VERSION_MINOR
  | GLFW_OPENGL_PROFILE
  | GLFW_OPENGL_FORWARD_COMPAT
  deriving DecidableEq, Repr

/-- Values passed to `glfwWindowHint` by `main`. -/
inductive HintValue
  | num (n : Int)
  | GLFW_OPENGL_CORE_PROFILE
  | GL_TRUE
  deriving DecidableEq, Repr

/-- Keys of `GLFW/glfw3.h`: the one `processInput` asks about, and all the others
by their key code. -/
inductive GlfwKey
  | GLFW_KEY_ESCAPE
  | other (code : Nat)
  deriving DecidableEq, Repr

/-- Key states `glfwGetKey` can report. -/
inductive KeyState
  | GLFW_RELEASE
  | GLFW_PRESS
  deriving DecidableEq, Repr

/-- A `float` literal as the source writes it, `num * 10 ^ (-scale)`.  The
program does no arithmetic on floats, it only hands the literals over. -/
structure FloatLit where
  num : Int
  scale : Nat
  deriving DecidableEq, Repr

/-! ## Constants of `Main.cpp` -/

/-- Line 9. -/
def SCR_WIDTH : Nat := 800

/-- Line 10. -/
def SCR_HEIGHT : Nat := 600

/-- Lines 13 to 21. -/
def fragmentShaderSource : String :=
  "\n\t#version 460 core\n\tout vec4 color;\n\n\tvoid main()\n\t\x7b\n\t\tcolor = vec4(1.0f, 0.5f, 0.2f, 1.0f);\n\t\x7d\n"

/-- Lines 23 to 31. -/
def vertexShaderSource : String :=
  "\n\t#version 460 core\n\tlayout (location = 0) in vec3 aPos;\n\n\tvoid main()\n\t\x7b\n\t\tgl_Position = vec4(aPos.x, aPos.y, aPos.z, 1.0f);\n\t\x7d\n"

/-- Lines 117 to 121, the array `vertices`. -/
def vertices : List FloatLit :=
  [ ⟨-5, 1⟩, ⟨-5, 1⟩, ⟨0, 1⟩,
    ⟨5, 1⟩, ⟨-5, 1⟩, ⟨0, 1⟩,
    ⟨0, 1⟩, ⟨5, 1⟩, ⟨0, 1⟩ ]

/-! ## Calls and traces -/

/-- One call, with the arguments the program passes.  Pointers to out-parameters
and the `NULL` arguments are left out. -/
inductive Call
  | glfwInit
  | glfwWindowHint (hint : GlfwHint) (value : HintValue)
  | glfwCreateWindow (width height : Nat) (title : String)
  | glfwTerminate
  | glfwMakeContextCurrent (window : Nat)
  | glfwSetFramebufferSizeCallback (window : Nat)
  | gladLoadGLLoader
  | glCreateShader (type : GLenum)
  | glShaderSource (shader : Nat) (count : Nat) (source : String)
  | glCompileShader (shader : Nat)
  | glGetShaderiv (shader : Nat) (pname : GLenum)
  | glGetShaderInfoLog (shader : Nat) (bufSize : Nat)
  | glCreateProgram
  | glAttachShader (program shader : Nat)
  | glLinkProgram (program : Nat)
  | glGetProgramiv (program : Nat) (pname : GLenum)
  | glGetProgramInfoLog (program : Nat) (bufSize : Nat)
  | glDeleteShader (shader : Nat)
  | glGenVertexArrays (n : Nat)
  | glGenBuffers (n : Nat)
  | glBindVertexArray (array : Nat)
  | glBindBuffer (target : GLenum) (buffer : Nat)
  | glBufferData (target : GLenum) (size : Nat) (data : List FloatLit) (usage : GLenum)
  | glVertexAttribPointer (index : Nat) (size : Nat) (type : GLenum)
      (normalized : GLboolean) (stride : Nat) (pointer : Nat)
  | glEnableVertexAttribArray (index : Nat)
  | glfwWindowShouldClose (window : Nat)
  | processInput (window : Nat)
  | glfwGetKey (window : Nat) (key : GlfwKey)
  | glfwSetWindowShouldClose (window : Nat) (value : Bool)
  | glClearColor (r g b a : FloatLit)
  | glClear (mask : GLenum)
  | glUseProgram (program : Nat)
  | glDrawArrays (mode : GLenum) (first count : Nat)
  | glfwSwapBuffers (window : Nat)
  | glfwPollEvents
  | glViewport (x y : Int) (width height : Int)
  | glDeleteVertexArrays (n : Nat) (array : Nat)
  | glDeleteBuffers (n : Nat) (buffer : Nat)
  deriving DecidableEq, Repr

/-- The function of `Main.cpp` whose body makes a call. -/
inductive Caller
  | main
  | processInput
  | framebufferSizeCallback
  deriving DecidableEq, Repr

/-- A call together with the function that made it. -/
structure Event where
  caller : Caller
  call : Call
  deriving DecidableEq, Repr

/-- A call made by the body of `main`. -/
def byMain (c : Call) : Event := ⟨Caller.main, c⟩

/-! ## The environment -/

/-- The window as the host keeps it: its size and the close flag. -/
structure WindowState where
  width : Int
  height : Int
  shouldClose : Bool
  deriving DecidableEq, Repr

/-- What the host delivers while `glfwPollEvents` runs. -/
inductive HostEvent
  | closeRequest
  | clearClose
  | framebufferSize (width height : Int)
  deriving DecidableEq, Repr

/-- What the host shows the program during one tick of the loop: the key states
`glfwGetKey` reports and the events delivered by `glfwPollEvents`. -/
structure TickInput where
  keys : GlfwKey → KeyState
  events : List HostEvent

/-- Everything the external libraries and the build decide.

* `glfwInit`, `gladLoadGLLoader`: the `int` the call returns.
* `window`: the pointer `glfwCreateWindow` returns, `0` for `NULL`.
* `success0`, `infoLog0`: the indeterminate contents of the locals `success` and
  `infoLog` before the first write.
* `getShaderiv`, `getProgramiv`: the value the query stores, `none` when the
  call raises an error and stores nothing.
* `getShaderInfoLog`, `getProgramInfoLog`: the text the call leaves in the
  buffer of the given size, `none` when it stores nothing.
* `ticks k`: the input of the tick with index `k`. -/
structure Env where
  apple : Bool
  sizeofFloat : Nat
  glfwInit : Int
  window : Nat
  gladLoadGLLoader : Int
  success0 : Int
  infoLog0 : String
  vertexShader : Nat
  fragmentShader : Nat
  shaderProgram : Nat
  VAO : Nat
  VBO : Nat
  getShaderiv : Nat → GLenum → Option Int
  getProgramiv : Nat → GLenum → Option Int
  getShaderInfoLog : Nat → Nat → Option String
  getProgramInfoLog : Nat → Nat → Option String
  ticks : Nat → TickInput

/-! ## `processInput` and the host callbacks -/

/-- The effect of `glfwSetWindowShouldClose(window, value)` on the window. -/
def glfwSetWindowShouldClose (w : WindowState) (value : Bool) : WindowState :=
  { w with shouldClose := value }

/-- Lines 194 to 200.  `keys` is what `glfwGetKey` reports during this call. -/
def processInput (window : Nat) (keys : GlfwKey → KeyState) (w : WindowState) :
    WindowState × List Event :=
  if keys GlfwKey.GLFW_KEY_ESCAPE = KeyState.GLFW_PRESS then
    (glfwSetWindowShouldClose w true,
      [⟨Caller.processInput, Call.glfwGetKey window GlfwKey.GLFW_KEY_ESCAPE⟩,
       ⟨Caller.processInput, Call.glfwSetWindowShouldClose window true⟩])
  else
    (w, [⟨Caller.processInput, Call.glfwGetKey window GlfwKey.GLFW_KEY_ESCAPE⟩])

/-- Lines 184 to 189. -/
def framebufferSizeCallback (width height : Int) : List Event :=
  [⟨Caller.framebufferSizeCallback, Call.glViewport 0 0 width height⟩]

/-- One host event: a close request sets the flag, the host may clear it, and a
new framebuffer size runs the callback registered at line 61. -/
def deliver (ev : HostEvent) (w : WindowState) : WindowState × List Event :=
  match ev with
  | HostEvent.closeRequest => ({ w with shouldClose := true }, [])
  | HostEvent.clearClose => ({ w with shouldClose := false }, [])
  | HostEvent.framebufferSize width height =>
      ({ w with width := width, height := height }, framebufferSizeCallback width height)

/-- What happens inside `glfwPollEvents()`: the pending events, in order. -/
def glfwPollEvents : List HostEvent → WindowState → WindowState × List Event
  | [], w => (w, [])
  | ev :: rest, w =>
      let r := deliver ev w
      let r2 := glfwPollEvents rest r.1
      (r2.1, r.2 ++ r2.2)

/-! ## The shader stage, lines 75 to 114 -/

/-- The locals `success` and `infoLog` of `main`. -/
structure Locals where
  success : Int
  infoLog : String

/-- The statement `glGetShaderiv(shader, GL_COMPILE_STATUS, &success);` followed
by `if (!success) ...`, which fetches the log of `shader` into `infoLog` and
prints `message` and the log.  Result: the locals, the calls, the console
output. -/
def compileCheck (e : Env) (shader : Nat) (message : String) (l : Locals) :
    Locals × List Event × List String :=
  let success := (e.getShaderiv shader GLenum.GL_COMPILE_STATUS).getD l.success
  if success = 0 then
    let infoLog := (e.getShaderInfoLog shader 512).getD l.infoLog
    (⟨success, infoLog⟩,
      [byMain (Call.glGetShaderiv shader GLenum.GL_COMPILE_STATUS),
       byMain (Call.glGetShaderInfoLog shader 512)],
      [message ++ infoLog ++ "\n"])
  else
    (⟨success, l.infoLog⟩, [byMain (Call.glGetShaderiv shader GLenum.GL_COMPILE_STATUS)], [])

/-- Lines 107 to 112: `glGetProgramiv(vertexShader, GL_COMPILE_STATUS, &success);`
followed by `if (!success) ...`, which fetches the log of `shaderProgram`. -/
def linkCheck (e : Env) (l : Locals) : Locals × List Event × List String :=
  let success := (e.getProgramiv e.vertexShader GLenum.GL_COMPILE_STATUS).getD l.success
  if success = 0 then
    let infoLog := (e.getProgramInfoLog e.shaderProgram 512).getD l.infoLog
    (⟨success, infoLog⟩,
      [byMain (Call.glGetProgramiv e.vertexShader GLenum.GL_COMPILE_STATUS),
       byMain (Call.glGetProgramInfoLog e.shaderProgram 512)],
      ["ERROR::SHADER::PROGRAM::LINKING_FAILED\n" ++ infoLog ++ "\n"])
  else
    (⟨success, l.infoLog⟩,
      [byMain (Call.glGetProgramiv e.vertexShader GLenum.GL_COMPILE_STATUS)], [])

/-- Lines 75 to 114.  Both compile checks of the source, the one at lines 82 to 86
and the one at lines 94 to 98, name `vertexShader` and print the `VERTEX`
message. -/
def shaderStage (e : Env) : List Event × List String :=
  let c1 := compileCheck e e.vertexShader "ERROR::SHADER::VERTEX::COMPILATION_FAILED\n"
    ⟨e.success0, e.infoLog0⟩
  let c2 := compileCheck e e.vertexShader "ERROR::SHADER::VERTEX::COMPILATION_FAILED\n" c1.1
  let c3 := linkCheck e c2.1
  ([byMain (Call.glCreateShader GLenum.GL_VERTEX_SHADER),
    byMain (Call.glShaderSource e.vertexShader 1 vertexShaderSource),
    byMain (Call.glCompileShader e.vertexShader)]
    ++ c1.2.1 ++
   [byMain (Call.glCreateShader GLenum.GL_FRAGMENT_SHADER),
    byMain (Call.glShaderSource e.fragmentShader 1 fragmentShaderSource),
    byMain (Call.glCompileShader e.fragmentShader)]
    ++ c2.2.1 ++
   [byMain Call.glCreateProgram,
    byMain (Call.glAttachShader e.shaderProgram e.vertexShader),
    byMain (Call.glAttachShader e.shaderProgram e.fragmentShader),
    byMain (Call.glLinkProgram e.shaderProgram)]
    ++ c3.2.1 ++
   [byMain (Call.glDeleteShader e.vertexShader),
    byMain (Call.glDeleteShader e.fragmentShader)],
   c1.2.2 ++ c2.2.2 ++ c3.2.2)

/-! ## The geometry stage, lines 117 to 146 -/

/-- The value of `sizeof(vertices)`. -/
def sizeofVertices (e : Env) : Nat := vertices.length * e.sizeofFloat

/-- Lines 123 to 146. -/
def geometryStage (e : Env) : List Event :=
  [byMain (Call.glGenVertexArrays 1),
   byMain (Call.glGenBuffers 1),
   byMain (Call.glBindVertexArray e.VAO),
   byMain (Call.glBindBuffer GLenum.GL_ARRAY_BUFFER e.VBO),
   byMain (Call.glBufferData GLenum.GL_ARRAY_BUFFER (sizeofVertices e) vertices
     GLenum.GL_STATIC_DRAW),
   byMain (Call.glVertexAttribPointer 0 3 GLenum.GL_FLOAT GLboolean.GL_FALSE
     (3 * e.sizeofFloat) 0),
   byMain (Call.glEnableVertexAttribArray 0),
   byMain (Call.glBindBuffer GLenum.GL_ARRAY_BUFFER 0),
   byMain (Call.glBindVertexArray 0)]

/-! ## The render loop, lines 153 to 169 -/

/-- The calls the body of the loop makes itself, lines 155 to 168. -/
def frameCalls (e : Env) : List Call :=
  [Call.processInput e.window,
   Call.glClearColor ⟨2, 1⟩ ⟨3, 1⟩ ⟨3, 1⟩ ⟨10, 1⟩,
   Call.glClear GLenum.GL_COLOR_BUFFER_BIT,
   Call.glUseProgram e.shaderProgram,
   Call.glBindVertexArray e.VAO,
   Call.glDrawArrays GLenum.GL_TRIANGLES 0 3,
   Call.glfwSwapBuffers e.window,
   Call.glfwPollEvents]

/-- One run of the body of the loop, lines 155 to 168: the window afterwards and
all calls made, those of `processInput` and of the callback included. -/
def tick (e : Env) (inp : TickInput) (w : WindowState) : WindowState × List Event :=
  let p := processInput e.window inp.keys w
  let q := glfwPollEvents inp.events p.1
  (q.1,
   [byMain (Call.processInput e.window)] ++ p.2 ++
   [byMain (Call.glClearColor ⟨2, 1⟩ ⟨3, 1⟩ ⟨3, 1⟩ ⟨10, 1⟩),
    byMain (Call.glClear GLenum.GL_COLOR_BUFFER_BIT),
    byMain (Call.glUseProgram e.shaderProgram),
    byMain (Call.glBindVertexArray e.VAO),
    byMain (Call.glDrawArrays GLenum.GL_TRIANGLES 0 3),
    byMain (Call.glfwSwapBuffers e.window),
    byMain Call.glfwPollEvents] ++ q.2)

/-- The loop test `glfwWindowShouldClose(window)` as a call. -/
def loopTest (e : Env) : Event := byMain (Call.glfwWindowShouldClose e.window)

/-- What a run of the loop leaves: the calls, the number of ticks that ran,
whether the loop test ended the loop, and the window. -/
structure LoopResult where
  trace : List Event
  ticks : Nat
  exited : Bool
  window : WindowState
  deriving DecidableEq

/-- The loop `while (!glfwWindowShouldClose(window)) ...` started at the tick
with index `k`, cut after `fuel` ticks. -/
def renderLoop (e : Env) : Nat → Nat → WindowState → LoopResult
  | 0, _, w =>
      if w.shouldClose then ⟨[loopTest e], 0, true, w⟩ else ⟨[loopTest e], 0, false, w⟩
  | fuel + 1, k, w =>
      if w.shouldClose then ⟨[loopTest e], 0, true, w⟩
      else
        let t := tick e (e.ticks k) w
        let r := renderLoop e fuel (k + 1) t.1
        ⟨loopTest e :: (t.2 ++ r.trace), r.ticks + 1, r.exited, r.window⟩

/-! ## `main`, lines 34 to 179 -/

/-- The calls, the console output and the exit status of a run; `exit = none`
when the loop was cut while running. -/
structure Result where
  trace : List Event
  console : List String
  exit : Option Int
  deriving DecidableEq

/-- Lines 42 to 48. -/
def windowHints (e : Env) : List Event :=
  [byMain (Call.glfwWindowHint GlfwHint.GLFW_CONTEXT_VERSION_MAJOR (HintValue.num 4)),
   byMain (Call.glfwWindowHint GlfwHint.GLFW_CONTEXT_VERSION_MINOR (HintValue.num 4)),
   byMain (Call.glfwWindowHint GlfwHint.GLFW_OPENGL_PROFILE
     HintValue.GLFW_OPENGL_CORE_PROFILE)]
  ++ (if e.apple then
        [byMain (Call.glfwWindowHint GlfwHint.GLFW_OPENGL_FORWARD_COMPAT HintValue.GL_TRUE)]
      else [])

/-- The calls of lines 37 to 65 of a run that gets past the loader. -/
def startupCalls (e : Env) : List Event :=
  [byMain Call.glfwInit] ++ windowHints e ++
  [byMain (Call.glfwCreateWindow 800 600 "Learn OpenGL"),
   byMain (Call.glfwMakeContextCurrent e.window),
   byMain (Call.glfwSetFramebufferSizeCallback e.window),
   byMain Call.gladLoadGLLoader]

/-- Lines 172 to 176. -/
def teardownCalls (e : Env) : List Event :=
  [byMain (Call.glDeleteVertexArrays 1 e.VAO),
   byMain (Call.glDeleteBuffers 1 e.VBO),
   byMain Call.glfwTerminate]

/-- The window right after `glfwCreateWindow(800, 600, ...)` succeeded: the size
asked for, and the close flag clear. -/
def initialWindow : WindowState := ⟨800, 600, false⟩

/-- The function `main`, cut after `fuel` ticks of the loop. -/
def main (fuel : Nat) (e : Env) : Result :=
  if e.glfwInit = 0 then
    ⟨[byMain Call.glfwInit], [], some (-1)⟩
  else if e.window = 0 then
    ⟨[byMain Call.glfwInit] ++ windowHints e ++
       [byMain (Call.glfwCreateWindow 800 600 "Learn OpenGL"), byMain Call.glfwTerminate],
     ["Failed to create GLFW window\n"], some (-1)⟩
  else if e.gladLoadGLLoader = 0 then
    ⟨startupCalls e, ["Failed to initialize GLAD\n"], some (-1)⟩
  else
    let s := shaderStage e
    let r := renderLoop e fuel 0 initialWindow
    if r.exited then
      ⟨startupCalls e ++ s.1 ++ geometryStage e ++ r.trace ++ teardownCalls e, s.2, some 0⟩
    else
      ⟨startupCalls e ++ s.1 ++ geometryStage e ++ r.trace, s.2, none⟩

/-! ## Views of a run -/

/-- The window at the loop test `j` ticks after the loop stood at the tick with
index `k` in window `w`, when each of those ticks runs. -/
def windowAt (e : Env) : Nat → Nat → WindowState → WindowState
  | 0, _, w => w
  | j + 1, k, w => windowAt e j (k + 1) (tick e (e.ticks k) w).1

/-- The calls of a trace made by the body of `main`. -/
def mainCalls (tr : List Event) : List Call :=
  (tr.filter (fun ev => decide (ev.caller = Caller.main))).map Event.call

/-- The calls of `n` passes through the loop: each pass is the loop test followed by
the calls of the body; the test that ends the passes comes last. -/
def loopCalls (e : Env) : Nat → List Call
  | 0 => [Call.glfwWindowShouldClose e.window]
  | n + 1 => Call.glfwWindowShouldClose e.window :: (frameCalls e ++ loopCalls e n)

/-- The list `xs` written `n` times in a row. -/
def repeated (xs : List Call) : Nat → List Call
  | 0 => []
  | n + 1 => xs ++ repeated xs n

/-- Whether a call is the loop test. -/
def isLoopTest : Call → Bool
  | Call.glfwWindowShouldClose _ => true
  | _ => false

/-- Whether a call is a draw call. -/
def isDrawArrays : Call → Bool
  | Call.glDrawArrays _ _ _ => true
  | _ => false

/-- Whether a call selects a program. -/
def isUseProgram : Call → Bool
  | Call.glUseProgram _ => true
  | _ => false

/-- Whether a call fetches an info log. -/
def isInfoLogCall : Call → Bool
  | Call.glGetShaderInfoLog _ _ => true
  | Call.glGetProgramInfoLog _ _ => true
  | _ => false

/-- Whether a call crosses the graphics boundary, that is, is one of the `gl*`
functions resolved by the loader. -/
def isGraphicsCall : Call → Bool
  | Call.glfwInit => false
  | Call.glfwWindowHint _ _ => false
  | Call.glfwCreateWindow _ _ _ => false
  | Call.glfwTerminate => false
  | Call.glfwMakeContextCurrent _ => false
  | Call.glfwSetFramebufferSizeCallback _ => false
  | Call.gladLoadGLLoader => false
  | Call.glfwWindowShouldClose _ => false
  | Call.processInput _ => false
  | Call.glfwGetKey _ _ => false
  | Call.glfwSetWindowShouldClose _ _ => false
  | Call.glfwSwapBuffers _ => false
  | Call.glfwPollEvents => false
  | _ => true

/-- The environment `e` with other answers to the status and info-log queries and
other indeterminate contents of `success` and `infoLog`; the host, the names
handed out and the build stay as they are. -/
def withShaderOutcome (e : Env) (s0 : Int) (l0 : String)
    (gs gp : Nat → GLenum → Option Int) (sl pl : Nat → Nat → Option String) : Env :=
  { e with
    success0 := s0
    infoLog0 := l0
    getShaderiv := gs
    getProgramiv := gp
    getShaderInfoLog := sl
    getProgramInfoLog := pl }

/-- The outcome `main` tests for at lines 37, 53 and 65. -/
def startupFails (e : Env) : Prop :=
  e.glfwInit = 0 ∨ e.window = 0 ∨ e.gladLoadGLLoader = 0

instance (e : Env) : Decidable (startupFails e) := by
  unfold startupFails
  infer_instance

/-! ## The vertex fetch of the graphics library

The graphics library is external.  These two definitions state its rule for
reading an array attribute out of a buffer of floats: component `j` of vertex
`i` sits at byte `pointer + i * stride + j * sizeof(float)`. -/

/-- The float at byte `b` of a buffer filled with `data`, for floats of `sf`
bytes; `none` off a float boundary or past the end. -/
def floatAt (sf : Nat) (data : List FloatLit) (b : Nat) : Option FloatLit :=
  if 0 < sf ∧ b % sf = 0 then data[b / sf]? else none

/-- Component `j` of vertex `i` under a layout of the given stride and pointer. -/
def fetchComponent (sf : Nat) (data : List FloatLit) (stride pointer i j : Nat) :
    Option FloatLit :=
  floatAt sf data (pointer + i * stride + j * sf)

/-! ## Concrete environments -/

/-- A tick in which no key is down and nothing is pending. -/
def idleTick : TickInput := ⟨fun _ => KeyState.GLFW_RELEASE, []⟩

/-- A tick in which Escape is down and nothing is pending. -/
def escapeTick : TickInput :=
  ⟨fun k =>
      if k = GlfwKey.GLFW_KEY_ESCAPE then KeyState.GLFW_PRESS else KeyState.GLFW_RELEASE,
    []⟩

/-- A run in which everything succeeds, with 4-byte floats, shader names 1 and 2,
program name 3, and Escape down in the tick with index 2. -/
def goodEnv : Env where
  apple := false
  sizeofFloat := 4
  glfwInit := 1
  window := 7
  gladLoadGLLoader := 1
  success0 := 0
  infoLog0 := ""
  vertexShader := 1
  fragmentShader := 2
  shaderProgram := 3
  VAO := 1
  VBO := 1
  getShaderiv := fun h p =>
    if (h = 1 ∨ h = 2) ∧ p = GLenum.GL_COMPILE_STATUS then some 1 else none
  getProgramiv := fun h p => if h = 3 ∧ p = GLenum.GL_LINK_STATUS then some 1 else none
  getShaderInfoLog := fun h _ => if h = 1 ∨ h = 2 then some "" else none
  getProgramInfoLog := fun h _ => if h = 3 then some "" else none
  ticks := fun k => if k = 2 then escapeTick else idleTick

/-- As `goodEnv`, but the fragment shader, name 2, fails to compile with the log
`bad fragment`; Escape is down in the first tick. -/
def fragmentFailsEnv : Env :=
  { goodEnv with
    getShaderiv := fun h p =>
      if h = 1 ∧ p = GLenum.GL_COMPILE_STATUS then some 1
      else if h = 2 ∧ p = GLenum.GL_COMPILE_STATUS then some 0 else none
    getShaderInfoLog := fun h _ =>
      if h = 1 then some "" else if h = 2 then some "bad fragment" else none
    ticks := fun _ => escapeTick }

/-- As `goodEnv`, but linking the program, name 3, fails with the log `bad link`;
Escape is down in the first tick. -/
def linkFailsEnv : Env :=
  { goodEnv with
    getProgramiv := fun h p => if h = 3 ∧ p = GLenum.GL_LINK_STATUS then some 0 else none
    getProgramInfoLog := fun h _ => if h = 3 then some "bad link" else none
    ticks := fun _ => escapeTick }

/-- As `goodEnv`, but the vertex shader, name 1, fails to compile with the log
`bad vertex`, while the program links; Escape is down in the first tick. -/
def vertexFailsEnv : Env :=
  { goodEnv with
    getShaderiv := fun h p =>
      if h = 1 ∧ p = GLenum.GL_COMPILE_STATUS then some 0
      else if h = 2 ∧ p = GLenum.GL_COMPILE_STATUS then some 1 else none
    getShaderInfoLog := fun h _ =>
      if h = 1 then some "bad vertex" else if h = 2 then some "" else none
    ticks := fun _ => escapeTick }

/-- As `goodEnv`, but `glfwInit` returns `GLFW_FALSE`. -/
def initFailsEnv : Env := { goodEnv with glfwInit := 0 }

/-- As `goodEnv`, but `glfwCreateWindow` returns `NULL`. -/
def windowFailsEnv : Env := { goodEnv with window := 0 }

/-- As `goodEnv`, but `gladLoadGLLoader` returns 0. -/
def loaderFailsEnv : Env := { goodEnv with gladLoadGLLoader := 0 }

/-! ## Lemmas on the host events -/

theorem glfwPollEvents_close_origin (evs : List HostEvent) (w : WindowState)
    (h : (glfwPollEvents evs w).1.shouldClose = true) :
    w.shouldClose = true ∨ HostEvent.closeRequest ∈ evs := by
  induction evs generalizing w with
  | nil => exact Or.inl h
  | cons ev rest ih =>
      cases ev with
      | closeRequest => exact Or.inr (List.mem_cons_self _ _)
      | clearClose =>
          rcases ih _ h with h1 | h1
          · simp [deliver] at h1
          · exact Or.inr (List.mem_cons_of_mem _ h1)
      | framebufferSize width height =>
          rcases ih _ h with h1 | h1
          · exact Or.inl (by simpa [deliver] using h1)
          · exact Or.inr (List.mem_cons_of_mem _ h1)

theorem glfwPollEvents_keeps_close (evs : List HostEvent) (w : WindowState)
    (hw : w.shouldClose = true) (hno : HostEvent.clearClose ∉ evs) :
    (glfwPollEvents evs w).1.shouldClose = true := by
  induction evs generalizing w with
  | nil => exact hw
  | cons ev rest ih =>
      have hrest : HostEvent.clearClose ∉ rest := fun hm => hno (List.mem_cons_of_mem _ hm)
      cases ev with
      | closeRequest => exact ih _ rfl hrest
      | clearClose => exact absurd (List.mem_cons_self _ _) hno
      | framebufferSize width height => exact ih _ (by simpa [deliver] using hw) hrest

theorem glfwPollEvents_not_main (evs : List HostEvent) (w : WindowState) :
    ∀ ev ∈ (glfwPollEvents evs w).2, ev.caller = Caller.framebufferSizeCallback := by
  induction evs generalizing w with
  | nil => intro ev hev; simp [glfwPollEvents] at hev
  | cons ev rest ih =>
      intro x hx
      simp only [glfwPollEvents, List.mem_append] at hx
      rcases hx with hx | hx
      · cases ev <;> simp [deliver, framebufferSizeCallback] at hx
        rw [hx]
      · exact ih _ x hx

theorem mainCalls_append (a b : List Event) : mainCalls (a ++ b) = mainCalls a ++ mainCalls b := by
  simp [mainCalls]

theorem mainCalls_glfwPollEvents (evs : List HostEvent) (w : WindowState) :
    mainCalls (glfwPollEvents evs w).2 = [] := by
  unfold mainCalls
  rw [List.map_eq_nil_iff, List.filter_eq_nil_iff]
  intro ev hev
  simp [glfwPollEvents_not_main evs w ev hev]

theorem mainCalls_processInput (window : Nat) (keys : GlfwKey → KeyState) (w : WindowState) :
    mainCalls (processInput window keys w).2 = [] := by
  unfold processInput
  split <;> simp [mainCalls]

/-- The body of the loop makes, itself, exactly the calls of `frameCalls`. -/
theorem mainCalls_tick (e : Env) (inp : TickInput) (w : WindowState) :
    mainCalls (tick e inp w).2 = frameCalls e := by
  simp only [tick, mainCalls_append, mainCalls_processInput, mainCalls_glfwPollEvents]
  simp [mainCalls, byMain, frameCalls]

/-! ## Lemmas on the loop -/

theorem renderLoop_closing (e : Env) (fuel k : Nat) (w : WindowState)
    (h : w.shouldClose = true) : renderLoop e fuel k w = ⟨[loopTest e], 0, true, w⟩ := by
  cases fuel <;> simp [renderLoop, h]

theorem renderLoop_running (e : Env) (fuel k : Nat) (w : WindowState)
    (h : w.shouldClose = false) :
    renderLoop e (fuel + 1) k w =
      ⟨loopTest e :: ((tick e (e.ticks k) w).2 ++
          (renderLoop e fuel (k + 1) (tick e (e.ticks k) w).1).trace),
        (renderLoop e fuel (k + 1) (tick e (e.ticks k) w).1).ticks + 1,
        (renderLoop e fuel (k + 1) (tick e (e.ticks k) w).1).exited,
        (renderLoop e fuel (k + 1) (tick e (e.ticks k) w).1).window⟩ := by
  simp [renderLoop, h]

theorem mainCalls_renderLoop (e : Env) (fuel k : Nat) (w : WindowState) :
    mainCalls (renderLoop e fuel k w).trace = loopCalls e (renderLoop e fuel k w).ticks := by
  induction fuel generalizing k w with
  | zero =>
      cases h : w.shouldClose <;> simp [renderLoop, h, mainCalls, loopTest, byMain, loopCalls]
  | succ fuel ih =>
      cases h : w.shouldClose
      · rw [renderLoop_running e fuel k w h]
        have hsplit : ∀ (x : Event) (xs : List Event), x :: xs = [x] ++ xs := fun _ _ => rfl
        simp only []
        rw [hsplit, mainCalls_append, mainCalls_append, mainCalls_tick, ih]
        simp [mainCalls, loopTest, byMain, loopCalls]
      · rw [renderLoop_closing e _ k w h]
        simp [mainCalls, loopTest, byMain, loopCalls]

theorem loopCalls_without_tests (e : Env) (n : Nat) :
    (loopCalls e n).filter (fun c => !isLoopTest c) = repeated (frameCalls e) n := by
  induction n with
  | zero => simp [loopCalls, repeated, isLoopTest]
  | succ n ih =>
      simp only [loopCalls, repeated, List.filter_cons, List.filter_append, ih]
      simp [isLoopTest, frameCalls]

theorem draws_processInput (window : Nat) (keys : GlfwKey → KeyState) (w : WindowState) :
    ((processInput window keys w).2.map Event.call).filter isDrawArrays = [] := by
  unfold processInput
  split <;> simp [isDrawArrays]

theorem draws_glfwPollEvents (evs : List HostEvent) (w : WindowState) :
    ((glfwPollEvents evs w).2.map Event.call).filter isDrawArrays = [] := by
  induction evs generalizing w with
  | nil => simp [glfwPollEvents]
  | cons ev rest ih =>
      simp only [glfwPollEvents, List.map_append, List.filter_append, ih, List.append_nil]
      cases ev <;> simp [deliver, framebufferSizeCallback, isDrawArrays]

theorem draws_tick (e : Env) (inp : TickInput) (w : WindowState) :
    ((tick e inp w).2.map Event.call).filter isDrawArrays
      = [Call.glDrawArrays GLenum.GL_TRIANGLES 0 3] := by
  simp only [tick, List.map_append, List.filter_append, draws_processInput,
    draws_glfwPollEvents]
  simp [byMain, isDrawArrays]

theorem draws_renderLoop (e : Env) (fuel k : Nat) (w : WindowState) :
    ((renderLoop e fuel k w).trace.map Event.call).filter isDrawArrays
      = List.replicate (renderLoop e fuel k w).ticks
          (Call.glDrawArrays GLenum.GL_TRIANGLES 0 3) := by
  induction fuel generalizing k w with
  | zero =>
      cases h : w.shouldClose <;> simp [renderLoop, h, loopTest, byMain, isDrawArrays]
  | succ fuel ih =>
      cases h : w.shouldClose
      · rw [renderLoop_running e fuel k w h]
        simp only [List.map_cons, List.map_append, List.filter_cons, List.filter_append,
          draws_tick, ih]
        simp [loopTest, byMain, isDrawArrays, List.replicate_succ]
      · rw [renderLoop_closing e _ k w h]
        simp [loopTest, byMain, isDrawArrays]

theorem renderLoop_ticks_running (e : Env) (fuel k : Nat) (w : WindowState) :
    ∀ j, j < (renderLoop e fuel k w).ticks → (windowAt e j k w).shouldClose = false := by
  induction fuel generalizing k w with
  | zero =>
      intro j hj
      cases h : w.shouldClose <;> simp [renderLoop, h] at hj
  | succ fuel ih =>
      intro j hj
      cases h : w.shouldClose
      · rw [renderLoop_running e fuel k w h] at hj
        cases j with
        | zero => simpa [windowAt] using h
        | succ j => exact ih (k + 1) _ j (Nat.lt_of_succ_lt_succ hj)
      · rw [renderLoop_closing e _ k w h] at hj
        exact absurd hj (Nat.not_lt_zero _)

theorem renderLoop_exit_window (e : Env) (fuel k : Nat) (w : WindowState)
    (hx : (renderLoop e fuel k w).exited = true) :
    (windowAt e (renderLoop e fuel k w).ticks k w).shouldClose = true := by
  induction fuel generalizing k w with
  | zero =>
      cases h : w.shouldClose
      · simp [renderLoop, h] at hx
      · simp [renderLoop, h, windowAt]
  | succ fuel ih =>
      cases h : w.shouldClose
      · rw [renderLoop_running e fuel k w h] at hx ⊢
        exact ih (k + 1) _ hx
      · rw [renderLoop_closing e _ k w h]
        simpa [windowAt] using h

theorem renderLoop_cut_ticks (e : Env) (fuel k : Nat) (w : WindowState)
    (hx : (renderLoop e fuel k w).exited = false) : (renderLoop e fuel k w).ticks = fuel := by
  induction fuel generalizing k w with
  | zero => cases h : w.shouldClose <;> simp [renderLoop, h]
  | succ fuel ih =>
      cases h : w.shouldClose
      · rw [renderLoop_running e fuel k w h] at hx ⊢
        simpa using ih (k + 1) _ hx
      · rw [renderLoop_closing e _ k w h] at hx
        simp at hx

theorem renderLoop_enough_fuel (e : Env) (n : Nat) :
    ∀ (fuel k : Nat) (w : WindowState), (windowAt e n k w).shouldClose = true → n ≤ fuel →
      (renderLoop e fuel k w).exited = true ∧ renderLoop e fuel k w = renderLoop e n k w := by
  induction n with
  | zero =>
      intro fuel k w hw _
      have hc : w.shouldClose = true := by simpa [windowAt] using hw
      rw [renderLoop_closing e fuel k w hc, renderLoop_closing e 0 k w hc]
      exact ⟨rfl, rfl⟩
  | succ n ih =>
      intro fuel k w hw hle
      obtain ⟨f, rfl⟩ : ∃ f, fuel = f + 1 := ⟨fuel - 1, by omega⟩
      cases h : w.shouldClose
      · rw [renderLoop_running e f k w h, renderLoop_running e n k w h]
        have hstep := ih f (k + 1) (tick e (e.ticks k) w).1 (by simpa [windowAt] using hw)
          (by omega)
        exact ⟨hstep.1, by rw [hstep.2]⟩
      · rw [renderLoop_closing e _ k w h, renderLoop_closing e _ k w h]
        exact ⟨rfl, rfl⟩

theorem renderLoop_trace_ends_with_test (e : Env) (fuel k : Nat) (w : WindowState) :
    ∃ body, (renderLoop e fuel k w).trace = body ++ [loopTest e] := by
  induction fuel generalizing k w with
  | zero => exact ⟨[], by cases h : w.shouldClose <;> simp [renderLoop, h]⟩
  | succ fuel ih =>
      cases h : w.shouldClose
      · obtain ⟨body, hb⟩ := ih (k + 1) (tick e (e.ticks k) w).1
        refine ⟨loopTest e :: ((tick e (e.ticks k) w).2 ++ body), ?_⟩
        rw [renderLoop_running e fuel k w h]
        simp [hb]
      · exact ⟨[], by rw [renderLoop_closing e _ k w h]; rfl⟩

theorem tick_escape_closes (e : Env) (inp : TickInput) (w : WindowState)
    (hkey : inp.keys GlfwKey.GLFW_KEY_ESCAPE = KeyState.GLFW_PRESS)
    (hno : HostEvent.clearClose ∉ inp.events) : (tick e inp w).1.shouldClose = true := by
  simp only [tick]
  apply glfwPollEvents_keeps_close _ _ _ hno
  simp [processInput, hkey, glfwSetWindowShouldClose]

/-! ## Lemmas on `main` -/

theorem main_past_startup (fuel : Nat) (e : Env) (h1 : e.glfwInit ≠ 0) (h2 : e.window ≠ 0)
    (h3 : e.gladLoadGLLoader ≠ 0) :
    main fuel e =
      if (renderLoop e fuel 0 initialWindow).exited then
        ⟨startupCalls e ++ (shaderStage e).1 ++ geometryStage e ++
            (renderLoop e fuel 0 initialWindow).trace ++ teardownCalls e,
          (shaderStage e).2, some 0⟩
      else
        ⟨startupCalls e ++ (shaderStage e).1 ++ geometryStage e ++
            (renderLoop e fuel 0 initialWindow).trace,
          (shaderStage e).2, none⟩ := by
  simp [main, h1, h2, h3]

theorem main_trace_past_startup (fuel : Nat) (e : Env) (h1 : e.glfwInit ≠ 0)
    (h2 : e.window ≠ 0) (h3 : e.gladLoadGLLoader ≠ 0) :
    ∃ rest, (main fuel e).trace = startupCalls e ++ rest := by
  rw [main_past_startup fuel e h1 h2 h3]
  split
  · exact ⟨(shaderStage e).1 ++ geometryStage e ++ (renderLoop e fuel 0 initialWindow).trace
      ++ teardownCalls e, by simp⟩
  · exact ⟨(shaderStage e).1 ++ geometryStage e ++ (renderLoop e fuel 0 initialWindow).trace,
      by simp⟩

theorem startupCalls_no_graphics (e : Env) :
    ∀ ev ∈ startupCalls e, isGraphicsCall ev.call = false := by
  cases ha : e.apple <;> simp [startupCalls, windowHints, ha, byMain, isGraphicsCall]

theorem startupCalls_order (e : Env) :
    List.Sublist
      [byMain Call.glfwInit, byMain (Call.glfwCreateWindow 800 600 "Learn OpenGL"),
       byMain (Call.glfwMakeContextCurrent e.window), byMain Call.gladLoadGLLoader]
      (startupCalls e) := by
  cases ha : e.apple <;> simp only [startupCalls, windowHints, ha] <;>
    repeat (first
      | exact List.Sublist.slnil
      | apply List.Sublist.cons₂
      | apply List.Sublist.cons)

theorem append_split_clean {α : Type} (p : α → Bool) (a b front back : List α) (x : α)
    (h : a ++ b = front ++ x :: back) (ha : ∀ y ∈ a, p y = false) (hx : p x = true) :
    ∃ c, front = a ++ c := by
  rcases List.append_eq_append_iff.mp h with ⟨c, hc, _⟩ | ⟨c, hc, hc2⟩
  · exact ⟨c, hc⟩
  · cases c with
    | nil => exact ⟨[], by simpa using hc.symm⟩
    | cons y ys =>
        have hy : y = x := by
          have := congrArg List.head? hc2
          simpa using this.symm
        have hmem : x ∈ a := by
          rw [hc, ← hy]
          simp
        rw [ha x hmem] at hx
        exact absurd hx (by decide)

/-! ## Lemmas on the shader stage -/

/-- The calls of the shader stage other than the fetches of an info log. -/
theorem shaderStage_calls (e : Env) :
    (shaderStage e).1.filter (fun ev => !isInfoLogCall ev.call) =
      [byMain (Call.glCreateShader GLenum.GL_VERTEX_SHADER),
       byMain (Call.glShaderSource e.vertexShader 1 vertexShaderSource),
       byMain (Call.glCompileShader e.vertexShader),
       byMain (Call.glGetShaderiv e.vertexShader GLenum.GL_COMPILE_STATUS),
       byMain (Call.glCreateShader GLenum.GL_FRAGMENT_SHADER),
       byMain (Call.glShaderSource e.fragmentShader 1 fragmentShaderSource),
       byMain (Call.glCompileShader e.fragmentShader),
       byMain (Call.glGetShaderiv e.vertexShader GLenum.GL_COMPILE_STATUS),
       byMain Call.glCreateProgram,
       byMain (Call.glAttachShader e.shaderProgram e.vertexShader),
       byMain (Call.glAttachShader e.shaderProgram e.fragmentShader),
       byMain (Call.glLinkProgram e.shaderProgram),
       byMain (Call.glGetProgramiv e.vertexShader GLenum.GL_COMPILE_STATUS),
       byMain (Call.glDeleteShader e.vertexShader),
       byMain (Call.glDeleteShader e.fragmentShader)] := by
  simp only [shaderStage, compileCheck, linkCheck]
  split_ifs <;> simp [byMain, isInfoLogCall]

theorem renderLoop_same_host (e e2 : Env) (hw : e2.window = e.window)
    (hp : e2.shaderProgram = e.shaderProgram) (ha : e2.VAO = e.VAO) (ht : e2.ticks = e.ticks)
    (fuel k : Nat) (w : WindowState) : renderLoop e2 fuel k w = renderLoop e fuel k w := by
  have htick : ∀ (inp : TickInput) (v : WindowState), tick e2 inp v = tick e inp v := by
    intro inp v
    simp [tick, hw, hp, ha]
  have htest : loopTest e2 = loopTest e := by simp [loopTest, hw]
  induction fuel generalizing k w with
  | zero => simp [renderLoop, htest]
  | succ fuel ih => simp [renderLoop, htest, htick, ht, ih]

theorem uses_processInput (window : Nat) (keys : GlfwKey → KeyState) (w : WindowState) :
    ((processInput window keys w).2.map Event.call).filter isUseProgram = [] := by
  unfold processInput
  split <;> simp [isUseProgram]

theorem uses_glfwPollEvents (evs : List HostEvent) (w : WindowState) :
    ((glfwPollEvents evs w).2.map Event.call).filter isUseProgram = [] := by
  induction evs generalizing w with
  | nil => simp [glfwPollEvents]
  | cons ev rest ih =>
      simp only [glfwPollEvents, List.map_append, List.filter_append, ih, List.append_nil]
      cases ev <;> simp [deliver, framebufferSizeCallback, isUseProgram]

theorem uses_tick (e : Env) (inp : TickInput) (w : WindowState) :
    ((tick e inp w).2.map Event.call).filter isUseProgram
      = [Call.glUseProgram e.shaderProgram] := by
  simp only [tick, List.map_append, List.filter_append, uses_processInput,
    uses_glfwPollEvents]
  simp [byMain, isUseProgram]

theorem uses_renderLoop (e : Env) (fuel k : Nat) (w : WindowState) :
    ((renderLoop e fuel k w).trace.map Event.call).filter isUseProgram
      = List.replicate (renderLoop e fuel k w).ticks (Call.glUseProgram e.shaderProgram) := by
  induction fuel generalizing k w with
  | zero =>
      cases h : w.shouldClose <;> simp [renderLoop, h, loopTest, byMain, isUseProgram]
  | succ fuel ih =>
      cases h : w.shouldClose
      · rw [renderLoop_running e fuel k w h]
        simp only [List.map_cons, List.map_append, List.filter_cons, List.filter_append,
          uses_tick, ih]
        simp [loopTest, byMain, isUseProgram, List.replicate_succ]
      · rw [renderLoop_closing e _ k w h]
        simp [loopTest, byMain, isUseProgram]

theorem uses_shaderStage (e : Env) :
    ((shaderStage e).1.map Event.call).filter isUseProgram = [] := by
  simp only [shaderStage, compileCheck, linkCheck]
  split_ifs <;> simp [byMain, isUseProgram]

theorem uses_startupCalls (e : Env) :
    ((startupCalls e).map Event.call).filter isUseProgram = [] := by
  cases ha : e.apple <;> simp [startupCalls, windowHints, ha, byMain, isUseProgram]

theorem shaderStage_attach_link (e : Env) :
    List.Sublist
      [byMain (Call.glAttachShader e.shaderProgram e.vertexShader),
       byMain (Call.glAttachShader e.shaderProgram e.fragmentShader),
       byMain (Call.glLinkProgram e.shaderProgram)]
      (shaderStage e).1 := by
  have h : List.Sublist ((shaderStage e).1.filter (fun ev => !isInfoLogCall ev.call))
      (shaderStage e).1 := List.filter_sublist _
  rw [shaderStage_calls] at h
  refine List.Sublist.trans ?_ h
  repeat (first
    | exact List.Sublist.slnil
    | apply List.Sublist.cons₂
    | apply List.Sublist.cons)

/-! ## Theorems -/

/-- C5: `processInput` sets the close flag when Escape is reported pressed; when it
is not, the window comes back as it was; the outcome depends on no other key; a
flag that was set stays set; width and height are never touched. -/
theorem processInput_sets_close_only_on_escape (window : Nat) (keys : GlfwKey → KeyState)
    (w : WindowState) :
    (keys GlfwKey.GLFW_KEY_ESCAPE = KeyState.GLFW_PRESS →
        (processInput window keys w).1.shouldClose = true) ∧
    (keys GlfwKey.GLFW_KEY_ESCAPE ≠ KeyState.GLFW_PRESS →
        (processInput window keys w).1 = w) ∧
    (∀ keys2 : GlfwKey → KeyState,
        keys2 GlfwKey.GLFW_KEY_ESCAPE = keys GlfwKey.GLFW_KEY_ESCAPE →
        processInput window keys2 w = processInput window keys w) ∧
    (w.shouldClose = true → (processInput window keys w).1.shouldClose = true) ∧
    (processInput window keys w).1.width = w.width ∧
    (processInput window keys w).1.height = w.height := by
  refine ⟨?_, ?_, ?_, ?_, ?_, ?_⟩
  · intro h
    simp [processInput, h, glfwSetWindowShouldClose]
  · intro h
    simp [processInput, h]
  · intro keys2 h
    simp [processInput, h]
  · intro h
    unfold processInput
    split
    · rfl
    · exact h
  · unfold processInput
    split <;> rfl
  · unfold processInput
    split <;> rfl

/-- Witness of C5: a window of 640 by 480 with the flag clear, once with Escape
pressed and once with every key released. -/
theorem processInput_sets_close_only_on_escape_witness :
    (processInput 7 escapeTick.keys ⟨640, 480, false⟩).1.shouldClose = true ∧
    (processInput 7 idleTick.keys ⟨640, 480, false⟩).1 = ⟨640, 480, false⟩ ∧
    (processInput 7 escapeTick.keys ⟨640, 480, true⟩).1.shouldClose = true :=
  ⟨(processInput_sets_close_only_on_escape 7 escapeTick.keys ⟨640, 480, false⟩).1 (by decide),
   (processInput_sets_close_only_on_escape 7 idleTick.keys ⟨640, 480, false⟩).2.1 (by decide),
   (processInput_sets_close_only_on_escape 7 escapeTick.keys ⟨640, 480, true⟩).2.2.2.1 rfl⟩

/-- C6: the calls the body of `main` makes in a loop of `n` ticks are the loop test
and the eight calls of `frameCalls`, `n` times over, and one last loop test; with
the tests left out they are `frameCalls` written `n` times.  Over all callers the
trace of the loop holds exactly `n` draw calls, each
`glDrawArrays(GL_TRIANGLES, 0, 3)`. -/
theorem frame_calls_repeat (e : Env) (fuel k : Nat) (w : WindowState) :
    frameCalls e =
      [Call.processInput e.window,
       Call.glClearColor ⟨2, 1⟩ ⟨3, 1⟩ ⟨3, 1⟩ ⟨10, 1⟩,
       Call.glClear GLenum.GL_COLOR_BUFFER_BIT,
       Call.glUseProgram e.shaderProgram,
       Call.glBindVertexArray e.VAO,
       Call.glDrawArrays GLenum.GL_TRIANGLES 0 3,
       Call.glfwSwapBuffers e.window,
       Call.glfwPollEvents] ∧
    mainCalls (renderLoop e fuel k w).trace = loopCalls e (renderLoop e fuel k w).ticks ∧
    (mainCalls (renderLoop e fuel k w).trace).filter (fun c => !isLoopTest c)
      = repeated (frameCalls e) (renderLoop e fuel k w).ticks ∧
    ((renderLoop e fuel k w).trace.map Event.call).filter isDrawArrays
      = List.replicate (renderLoop e fuel k w).ticks
          (Call.glDrawArrays GLenum.GL_TRIANGLES 0 3) := by
  refine ⟨rfl, mainCalls_renderLoop e fuel k w, ?_, draws_renderLoop e fuel k w⟩
  rw [mainCalls_renderLoop, loopCalls_without_tests]

/-- C1, evaluated where the fragment shader fails to compile and the vertex shader
compiles: the run prints nothing at all, so no diagnostic for the fragment stage
and none carrying its log `bad fragment`; the fragment shader is never asked for
its status or its log. -/
theorem fragment_failure_prints_nothing :
    fragmentFailsEnv.getShaderiv fragmentFailsEnv.fragmentShader GLenum.GL_COMPILE_STATUS
        = some 0 ∧
      fragmentFailsEnv.getShaderiv fragmentFailsEnv.vertexShader GLenum.GL_COMPILE_STATUS
        = some 1 ∧
      (main 1 fragmentFailsEnv).exit = some 0 ∧
      (main 1 fragmentFailsEnv).console = [] ∧
      byMain (Call.glGetShaderiv fragmentFailsEnv.fragmentShader GLenum.GL_COMPILE_STATUS)
        ∉ (main 1 fragmentFailsEnv).trace ∧
      byMain (Call.glGetShaderInfoLog fragmentFailsEnv.fragmentShader 512)
        ∉ (main 1 fragmentFailsEnv).trace := by
  decide

/-- C2, evaluated twice.  Where linking fails and both shaders compile, the status
query names the vertex shader, stores nothing, and the run prints no link
diagnostic.  Where the program links and the vertex shader fails to compile, the
value left in `success` by the compile check makes the run print the link
diagnostic. -/
theorem link_failure_prints_nothing :
    linkFailsEnv.getProgramiv linkFailsEnv.shaderProgram GLenum.GL_LINK_STATUS = some 0 ∧
      (main 1 linkFailsEnv).exit = some 0 ∧
      (main 1 linkFailsEnv).console = [] ∧
      byMain (Call.glGetProgramiv linkFailsEnv.vertexShader GLenum.GL_COMPILE_STATUS)
        ∈ (main 1 linkFailsEnv).trace ∧
      byMain (Call.glGetProgramiv linkFailsEnv.shaderProgram GLenum.GL_LINK_STATUS)
        ∉ (main 1 linkFailsEnv).trace ∧
      vertexFailsEnv.getProgramiv vertexFailsEnv.shaderProgram GLenum.GL_LINK_STATUS
        = some 1 ∧
      (main 1 vertexFailsEnv).console =
        ["ERROR::SHADER::VERTEX::COMPILATION_FAILED\nbad vertex\n",
         "ERROR::SHADER::VERTEX::COMPILATION_FAILED\nbad vertex\n",
         "ERROR::SHADER::PROGRAM::LINKING_FAILED\n\n"] := by
  decide

/-- C3, evaluated where `glfwInit` fails: the run ends with status -1 after the
single call `glfwInit`, and the console stays empty.  The runs in which the
window or the loader fails end with status -1 as well, and each has printed its
message. -/
theorem init_failure_prints_nothing :
    (main 1 initFailsEnv).exit = some (-1) ∧
      (main 1 initFailsEnv).console = [] ∧
      (main 1 initFailsEnv).trace = [byMain Call.glfwInit] ∧
      (main 1 windowFailsEnv).exit = some (-1) ∧
      (main 1 windowFailsEnv).console = ["Failed to create GLFW window\n"] ∧
      (main 1 loaderFailsEnv).exit = some (-1) ∧
      (main 1 loaderFailsEnv).console = ["Failed to initialize GLAD\n"] := by
  decide

/-- C4: the loop has two states, told apart by the close flag at the loop test.
With the flag set the loop ends at once, whatever the fuel, the tick index and
the input to come (Closing is never left); with the flag clear the body runs
once and the loop goes on from the window the tick leaves.  So the ticks that
run are exactly those whose loop test saw the flag clear, and the loop ends as
soon as a test sees it set.  A tick raises the flag only if Escape was reported
pressed or the host delivered a close request.  When Escape is reported pressed
in a tick and the host does not clear the flag in that tick, the tick still
makes all its calls and is the last one. -/
theorem frame_loop_two_states (e : Env) :
    (∀ (fuel k : Nat) (w : WindowState), w.shouldClose = true →
        renderLoop e fuel k w = ⟨[loopTest e], 0, true, w⟩) ∧
    (∀ (fuel k : Nat) (w : WindowState), w.shouldClose = false →
        renderLoop e (fuel + 1) k w =
          ⟨loopTest e :: ((tick e (e.ticks k) w).2 ++
              (renderLoop e fuel (k + 1) (tick e (e.ticks k) w).1).trace),
            (renderLoop e fuel (k + 1) (tick e (e.ticks k) w).1).ticks + 1,
            (renderLoop e fuel (k + 1) (tick e (e.ticks k) w).1).exited,
            (renderLoop e fuel (k + 1) (tick e (e.ticks k) w).1).window⟩) ∧
    (∀ (fuel k : Nat) (w : WindowState),
        (∀ j, j < (renderLoop e fuel k w).ticks → (windowAt e j k w).shouldClose = false) ∧
        ((renderLoop e fuel k w).exited = true →
          (windowAt e (renderLoop e fuel k w).ticks k w).shouldClose = true) ∧
        ((renderLoop e fuel k w).exited = false → (renderLoop e fuel k w).ticks = fuel)) ∧
    (∀ (n fuel k : Nat) (w : WindowState),
        (windowAt e n k w).shouldClose = true → n ≤ fuel →
        (renderLoop e fuel k w).exited = true) ∧
    (∀ (inp : TickInput) (w : WindowState), w.shouldClose = false →
        (tick e inp w).1.shouldClose = true →
        inp.keys GlfwKey.GLFW_KEY_ESCAPE = KeyState.GLFW_PRESS ∨
          HostEvent.closeRequest ∈ inp.events) ∧
    (∀ (fuel k : Nat) (w : WindowState), w.shouldClose = false →
        (e.ticks k).keys GlfwKey.GLFW_KEY_ESCAPE = KeyState.GLFW_PRESS →
        HostEvent.clearClose ∉ (e.ticks k).events →
        renderLoop e (fuel + 1) k w =
          ⟨loopTest e :: ((tick e (e.ticks k) w).2 ++ [loopTest e]), 1, true,
            (tick e (e.ticks k) w).1⟩ ∧
        mainCalls (tick e (e.ticks k) w).2 = frameCalls e) := by
  refine ⟨renderLoop_closing e, renderLoop_running e, ?_, ?_, ?_, ?_⟩
  · intro fuel k w
    exact ⟨renderLoop_ticks_running e fuel k w, renderLoop_exit_window e fuel k w,
      renderLoop_cut_ticks e fuel k w⟩
  · intro n fuel k w hw hle
    exact (renderLoop_enough_fuel e n fuel k w hw hle).1
  · intro inp w hw ht
    simp only [tick] at ht
    rcases glfwPollEvents_close_origin _ _ ht with h1 | h1
    · left
      by_contra hne
      simp [processInput, hne, hw] at h1
    · exact Or.inr h1
  · intro fuel k w hw hkey hno
    have hc := tick_escape_closes e (e.ticks k) w hkey hno
    refine ⟨?_, mainCalls_tick e _ w⟩
    rw [renderLoop_running e fuel k w hw, renderLoop_closing e fuel (k + 1) _ hc]

/-- Witness of C4 on `goodEnv`: the loop entered with the flag set, the loop entered
with the flag clear at tick 0, and the tick with index 2, in which Escape is
pressed. -/
theorem frame_loop_two_states_witness :
    renderLoop goodEnv 5 0 ⟨800, 600, true⟩
      = ⟨[loopTest goodEnv], 0, true, ⟨800, 600, true⟩⟩ ∧
    (renderLoop goodEnv 5 0 initialWindow).exited = true ∧
    (renderLoop goodEnv 5 0 initialWindow).ticks = 3 ∧
    (renderLoop goodEnv 1 2 initialWindow).ticks = 1 ∧
    (renderLoop goodEnv 1 2 initialWindow).exited = true :=
  ⟨(frame_loop_two_states goodEnv).1 5 0 ⟨800, 600, true⟩ rfl,
   (frame_loop_two_states goodEnv).2.2.2.1 3 5 0 initialWindow (by decide) (by decide),
   by decide,
   congrArg LoopResult.ticks
     ((frame_loop_two_states goodEnv).2.2.2.2.2 0 2 initialWindow rfl (by decide)
       (by decide)).1,
   congrArg LoopResult.exited
     ((frame_loop_two_states goodEnv).2.2.2.2.2 0 2 initialWindow rfl (by decide)
       (by decide)).1⟩

/-- C7: when startup succeeds and the loop test sees the flag set after `n` ticks,
every run with fuel for `n` ticks ends with status 0; its calls are those of the
setup, those of the loop up to the test that ends it, and then exactly
`glDeleteVertexArrays(1, &VAO)`, `glDeleteBuffers(1, &VBO)`, `glfwTerminate()`;
fuel beyond `n` changes nothing. -/
theorem teardown_after_loop (e : Env) (n fuel : Nat) (h1 : e.glfwInit ≠ 0)
    (h2 : e.window ≠ 0) (h3 : e.gladLoadGLLoader ≠ 0)
    (hclose : (windowAt e n 0 initialWindow).shouldClose = true) (hfuel : n ≤ fuel) :
    (main fuel e).exit = some 0 ∧
    (∃ body, (renderLoop e fuel 0 initialWindow).trace = body ++ [loopTest e] ∧
      (main fuel e).trace =
        startupCalls e ++ (shaderStage e).1 ++ geometryStage e ++ body ++
          [loopTest e,
           byMain (Call.glDeleteVertexArrays 1 e.VAO),
           byMain (Call.glDeleteBuffers 1 e.VBO),
           byMain Call.glfwTerminate]) ∧
    main fuel e = main n e := by
  have hx := renderLoop_enough_fuel e n fuel 0 initialWindow hclose hfuel
  have hn := renderLoop_enough_fuel e n n 0 initialWindow hclose (Nat.le_refl n)
  obtain ⟨body, hb⟩ := renderLoop_trace_ends_with_test e fuel 0 initialWindow
  refine ⟨?_, ⟨body, hb, ?_⟩, ?_⟩
  · rw [main_past_startup fuel e h1 h2 h3]
    simp [hx.1]
  · rw [main_past_startup fuel e h1 h2 h3]
    simp [hx.1, hb, teardownCalls]
  · rw [main_past_startup fuel e h1 h2 h3, main_past_startup n e h1 h2 h3, hx.2]

/-- Witness of C7 on `goodEnv`, where the flag is set after 3 ticks: a run with fuel
for 4 ticks. -/
theorem teardown_after_loop_witness :
    (main 4 goodEnv).exit = some 0 ∧ main 4 goodEnv = main 3 goodEnv :=
  ⟨(teardown_after_loop goodEnv 3 4 (by decide) (by decide) (by decide) (by decide)
      (by decide)).1,
   (teardown_after_loop goodEnv 3 4 (by decide) (by decide) (by decide) (by decide)
      (by decide)).2.2⟩

/-- C10: in every run, cut anywhere, a `gl*` call is made only after `glfwInit`
returned non-zero, `glfwCreateWindow` returned a window and `gladLoadGLLoader`
returned non-zero, and the calls `glfwInit`, `glfwCreateWindow`,
`glfwMakeContextCurrent`, `gladLoadGLLoader` stand before it in the trace in that
order; a run in which startup fails makes no `gl*` call. -/
theorem no_graphics_call_before_loader (e : Env) (fuel : Nat) :
    (∀ (front back : List Event) (ev : Event),
        (main fuel e).trace = front ++ ev :: back → isGraphicsCall ev.call = true →
        e.glfwInit ≠ 0 ∧ e.window ≠ 0 ∧ e.gladLoadGLLoader ≠ 0 ∧
        List.Sublist
          [byMain Call.glfwInit, byMain (Call.glfwCreateWindow 800 600 "Learn OpenGL"),
           byMain (Call.glfwMakeContextCurrent e.window), byMain Call.gladLoadGLLoader]
          front) ∧
    (startupFails e → ∀ ev ∈ (main fuel e).trace, isGraphicsCall ev.call = false) := by
  have hfail : startupFails e →
      ∀ ev ∈ (main fuel e).trace, isGraphicsCall ev.call = false := by
    intro hf
    by_cases h1 : e.glfwInit = 0
    · simp [main, h1, byMain, isGraphicsCall]
    · by_cases h2 : e.window = 0
      · cases ha : e.apple <;> simp [main, h1, h2, windowHints, ha, byMain, isGraphicsCall]
      · intro ev hev
        have h3 : e.gladLoadGLLoader = 0 := by
          rcases hf with h | h | h
          · exact absurd h h1
          · exact absurd h h2
          · exact h
        simp only [main, h1, h2, h3, if_true, if_false] at hev
        exact startupCalls_no_graphics e ev hev
  refine ⟨?_, hfail⟩
  intro front back ev htr hg
  by_cases hf : startupFails e
  · have hmem : ev ∈ (main fuel e).trace := by
      rw [htr]
      simp
    rw [hfail hf ev hmem] at hg
    exact absurd hg (by decide)
  · have h1 : e.glfwInit ≠ 0 := fun h => hf (Or.inl h)
    have h2 : e.window ≠ 0 := fun h => hf (Or.inr (Or.inl h))
    have h3 : e.gladLoadGLLoader ≠ 0 := fun h => hf (Or.inr (Or.inr h))
    refine ⟨h1, h2, h3, ?_⟩
    obtain ⟨rest, hrest⟩ := main_trace_past_startup fuel e h1 h2 h3
    rw [hrest] at htr
    obtain ⟨c, hc⟩ := append_split_clean (fun x => isGraphicsCall x.call) _ _ _ _ ev htr
      (startupCalls_no_graphics e) hg
    rw [hc]
    exact (startupCalls_order e).trans (List.sublist_append_left _ _)

/-- Witness of C10: in the run of `goodEnv` with fuel for 4 ticks the call
`glCreateShader(GL_VERTEX_SHADER)` stands right after the six calls of the
startup; the run of `initFailsEnv` makes no `gl*` call. -/
theorem no_graphics_call_before_loader_witness :
    (goodEnv.glfwInit ≠ 0 ∧ goodEnv.window ≠ 0 ∧ goodEnv.gladLoadGLLoader ≠ 0 ∧
      List.Sublist
        [byMain Call.glfwInit, byMain (Call.glfwCreateWindow 800 600 "Learn OpenGL"),
         byMain (Call.glfwMakeContextCurrent goodEnv.window), byMain Call.gladLoadGLLoader]
        (startupCalls goodEnv)) ∧
    (∀ ev ∈ (main 4 initFailsEnv).trace, isGraphicsCall ev.call = false) :=
  ⟨(no_graphics_call_before_loader goodEnv 4).1 (startupCalls goodEnv)
      (((main 4 goodEnv).trace.drop (startupCalls goodEnv).length).tail)
      (byMain (Call.glCreateShader GLenum.GL_VERTEX_SHADER)) (by decide) (by decide),
   (no_graphics_call_before_loader initFailsEnv 4).2 (by decide)⟩

/-- C8: two runs that differ only in what the status and info-log queries answer
(and in the indeterminate first contents of `success` and `infoLog`) end with the
same status and make the same calls, the fetches of an info log left out.  In a
run that gets past startup both shaders are attached and the program is linked,
whatever the queries answer, and every `glUseProgram` of the run names the
program created in the shader stage, once per tick. -/
theorem shader_outcome_is_no_gate (e : Env) (fuel : Nat) (s0 : Int) (l0 : String)
    (gs gp : Nat → GLenum → Option Int) (sl pl : Nat → Nat → Option String) :
    (main fuel (withShaderOutcome e s0 l0 gs gp sl pl)).exit = (main fuel e).exit ∧
    (main fuel (withShaderOutcome e s0 l0 gs gp sl pl)).trace.filter
        (fun ev => !isInfoLogCall ev.call)
      = (main fuel e).trace.filter (fun ev => !isInfoLogCall ev.call) ∧
    (¬ startupFails e →
      List.Sublist
        [byMain (Call.glAttachShader e.shaderProgram e.vertexShader),
         byMain (Call.glAttachShader e.shaderProgram e.fragmentShader),
         byMain (Call.glLinkProgram e.shaderProgram)]
        (main fuel e).trace ∧
      ((main fuel e).trace.map Event.call).filter isUseProgram
        = List.replicate (renderLoop e fuel 0 initialWindow).ticks
            (Call.glUseProgram e.shaderProgram)) := by
  have hloop := renderLoop_same_host e (withShaderOutcome e s0 l0 gs gp sl pl) rfl rfl rfl rfl
    fuel 0 initialWindow
  have hs : startupCalls (withShaderOutcome e s0 l0 gs gp sl pl) = startupCalls e := rfl
  have hg : geometryStage (withShaderOutcome e s0 l0 gs gp sl pl) = geometryStage e := rfl
  have ht : teardownCalls (withShaderOutcome e s0 l0 gs gp sl pl) = teardownCalls e := rfl
  have hsh : (shaderStage (withShaderOutcome e s0 l0 gs gp sl pl)).1.filter
        (fun ev => !isInfoLogCall ev.call)
      = (shaderStage e).1.filter (fun ev => !isInfoLogCall ev.call) := by
    rw [shaderStage_calls, shaderStage_calls]
    rfl
  have hboth : (main fuel (withShaderOutcome e s0 l0 gs gp sl pl)).exit = (main fuel e).exit ∧
      (main fuel (withShaderOutcome e s0 l0 gs gp sl pl)).trace.filter
          (fun ev => !isInfoLogCall ev.call)
        = (main fuel e).trace.filter (fun ev => !isInfoLogCall ev.call) := by
    by_cases h1 : e.glfwInit = 0
    · have h1b : (withShaderOutcome e s0 l0 gs gp sl pl).glfwInit = 0 := h1
      simp [main, h1, h1b]
    · have h1b : (withShaderOutcome e s0 l0 gs gp sl pl).glfwInit ≠ 0 := h1
      by_cases h2 : e.window = 0
      · have h2b : (withShaderOutcome e s0 l0 gs gp sl pl).window = 0 := h2
        have hh : windowHints (withShaderOutcome e s0 l0 gs gp sl pl) = windowHints e := rfl
        simp [main, h1, h1b, h2, h2b, hh]
      · have h2b : (withShaderOutcome e s0 l0 gs gp sl pl).window ≠ 0 := h2
        by_cases h3 : e.gladLoadGLLoader = 0
        · have h3b : (withShaderOutcome e s0 l0 gs gp sl pl).gladLoadGLLoader = 0 := h3
          simp [main, h1, h1b, h2, h2b, h3, h3b, hs]
        · have h3b : (withShaderOutcome e s0 l0 gs gp sl pl).gladLoadGLLoader ≠ 0 := h3
          rw [main_past_startup fuel _ h1b h2b h3b, main_past_startup fuel e h1 h2 h3,
            hloop, hs, hg, ht]
          cases (renderLoop e fuel 0 initialWindow).exited <;>
            simp [List.filter_append, hsh]
  refine ⟨hboth.1, hboth.2, ?_⟩
  intro hf
  have h1 : e.glfwInit ≠ 0 := fun h => hf (Or.inl h)
  have h2 : e.window ≠ 0 := fun h => hf (Or.inr (Or.inl h))
  have h3 : e.gladLoadGLLoader ≠ 0 := fun h => hf (Or.inr (Or.inr h))
  have hgeo : ((geometryStage e).map Event.call).filter isUseProgram = [] := by
    simp [geometryStage, byMain, isUseProgram]
  have htd : ((teardownCalls e).map Event.call).filter isUseProgram = [] := by
    simp [teardownCalls, byMain, isUseProgram]
  have hsub : List.Sublist
      [byMain (Call.glAttachShader e.shaderProgram e.vertexShader),
       byMain (Call.glAttachShader e.shaderProgram e.fragmentShader),
       byMain (Call.glLinkProgram e.shaderProgram)]
      (startupCalls e ++ (shaderStage e).1) :=
    (shaderStage_attach_link e).trans (List.sublist_append_right _ _)
  rw [main_past_startup fuel e h1 h2 h3]
  cases (renderLoop e fuel 0 initialWindow).exited
  · refine ⟨?_, ?_⟩
    · simp only [Bool.false_eq_true, if_false, List.append_assoc]
      rw [← List.append_assoc]
      exact hsub.trans (List.sublist_append_left _ _)
    · simp [List.filter_append, uses_startupCalls, uses_shaderStage, uses_renderLoop, hgeo]
  · refine ⟨?_, ?_⟩
    · simp only [if_true, List.append_assoc]
      rw [← List.append_assoc]
      exact hsub.trans (List.sublist_append_left _ _)
    · simp [List.filter_append, uses_startupCalls, uses_shaderStage, uses_renderLoop, hgeo,
        htd]

/-- Witness of C8 on `fragmentFailsEnv`, whose fragment shader fails to compile: the
run attaches both shaders, links, and selects program 3 in its one tick. -/
theorem shader_outcome_is_no_gate_witness :
    List.Sublist
      [byMain (Call.glAttachShader 3 1), byMain (Call.glAttachShader 3 2),
       byMain (Call.glLinkProgram 3)]
      (main 1 fragmentFailsEnv).trace ∧
    ((main 1 fragmentFailsEnv).trace.map Event.call).filter isUseProgram
      = List.replicate (renderLoop fragmentFailsEnv 1 0 initialWindow).ticks
          (Call.glUseProgram 3) :=
  (shader_outcome_is_no_gate fragmentFailsEnv 1 0 "" (fun _ _ => none) (fun _ _ => none)
    (fun _ _ => none) (fun _ _ => none)).2.2 (by decide)

/-- C9: the geometry stage uploads the 9 floats of `vertices`, `9 * sizeof(float)`
bytes, with `GL_STATIC_DRAW`, then describes slot 0 as 3 floats, not normalised,
stride `3 * sizeof(float)`, pointer 0, then enables slot 0; the loop draws 3
vertices from index 0.  With 4-byte floats the size is 36 and the stride 12.
For any float size above 0 the size is exactly 3 strides, component `j` of vertex
`i` (both below 3) is the float with index `3 * i + j` of `vertices`, and its
bytes end within the uploaded size. -/
theorem geometry_layout (e : Env) :
    vertices.length = 9 ∧
    sizeofVertices e = 9 * e.sizeofFloat ∧
    List.Sublist
      [byMain (Call.glBufferData GLenum.GL_ARRAY_BUFFER (9 * e.sizeofFloat) vertices
         GLenum.GL_STATIC_DRAW),
       byMain (Call.glVertexAttribPointer 0 3 GLenum.GL_FLOAT GLboolean.GL_FALSE
         (3 * e.sizeofFloat) 0),
       byMain (Call.glEnableVertexAttribArray 0)]
      (geometryStage e) ∧
    Call.glDrawArrays GLenum.GL_TRIANGLES 0 3 ∈ frameCalls e ∧
    (e.sizeofFloat = 4 → sizeofVertices e = 36 ∧ 3 * e.sizeofFloat = 12) ∧
    (0 < e.sizeofFloat →
      sizeofVertices e / (3 * e.sizeofFloat) = 3 ∧
      sizeofVertices e % (3 * e.sizeofFloat) = 0 ∧
      ∀ i j, i < 3 → j < 3 →
        fetchComponent e.sizeofFloat vertices (3 * e.sizeofFloat) 0 i j
            = vertices[3 * i + j]? ∧
        3 * i + j < vertices.length ∧
        0 + i * (3 * e.sizeofFloat) + j * e.sizeofFloat + e.sizeofFloat
            ≤ sizeofVertices e) := by
  have hlen : vertices.length = 9 := rfl
  have hsize : sizeofVertices e = 9 * e.sizeofFloat := by simp [sizeofVertices, hlen]
  refine ⟨hlen, hsize, ?_, ?_, ?_, ?_⟩
  · simp only [geometryStage, hsize]
    repeat (first
      | exact List.Sublist.slnil
      | apply List.Sublist.cons₂
      | apply List.Sublist.cons)
  · simp [frameCalls]
  · intro h4
    rw [hsize, h4]
    exact ⟨rfl, rfl⟩
  · intro hpos
    have h9 : 9 * e.sizeofFloat = 3 * (3 * e.sizeofFloat) := by ring
    refine ⟨?_, ?_, ?_⟩
    · rw [hsize, h9]
      exact Nat.mul_div_cancel _ (by omega)
    · rw [hsize, h9]
      exact Nat.mul_mod_left _ _
    · intro i j hi hj
      have haddr : 0 + i * (3 * e.sizeofFloat) + j * e.sizeofFloat
          = (3 * i + j) * e.sizeofFloat := by ring
      refine ⟨?_, ?_, ?_⟩
      · unfold fetchComponent floatAt
        rw [haddr, Nat.mul_mod_left, Nat.mul_div_cancel _ hpos]
        simp [hpos]
      · rw [hlen]
        omega
      · rw [haddr, hsize]
        have hle : (3 * i + j) + 1 ≤ 9 := by omega
        calc (3 * i + j) * e.sizeofFloat + e.sizeofFloat
            = ((3 * i + j) + 1) * e.sizeofFloat := by ring
          _ ≤ 9 * e.sizeofFloat := Nat.mul_le_mul_right _ hle

/-- Witness of C9 on `goodEnv`, whose floats have 4 bytes: size 36, stride 12, and
component 1 of vertex 2 is the float with index 7, the literal `0.5f`. -/
theorem geometry_layout_witness :
    (sizeofVertices goodEnv = 36 ∧ 3 * goodEnv.sizeofFloat = 12) ∧
    sizeofVertices goodEnv / (3 * goodEnv.sizeofFloat) = 3 ∧
    fetchComponent goodEnv.sizeofFloat vertices (3 * goodEnv.sizeofFloat) 0 2 1
      = some ⟨5, 1⟩ :=
  ⟨(geometry_layout goodEnv).2.2.2.2.1 rfl,
   ((geometry_layout goodEnv).2.2.2.2.2 (by decide)).1,
   (((geometry_layout goodEnv).2.2.2.2.2 (by decide)).2.2 2 1 (by decide) (by decide)).1⟩

end LearnOpenGL
